import Mathlib

/-!
Shallow embedding of `src/protocol/index.ts` (the `Protocol` class of the
i18n-ally webview protocol bridge).

External collaborators (the loader, the review tracker, the configuration
provider, the key detector, the editor window and the host command facility)
are modelled as pure functions bundled in an `Env`; opaque external payloads
(shadow-locale tables, review data, i18n UI strings, review user identity,
free-form message payloads) are modelled as `Nat` tokens.  Every observable
action of the component (a transport delivery, a loader write, a call into the
review tracker or the host) is recorded in an `Effect` trace, and each method
of the class becomes a function from the session state to a new state plus the
trace of effects the call performs.
-/

/-- The mode of the protocol session (`_mode` field of the class). -/
inductive Mode where
  | standalone
  | currentFile
deriving DecidableEq, Repr

/-- An element of a message's `items` list, as consumed by the
`get_records` handler (`i.keypath`, `i.locale`) and by `setRecords`
(destructuring `{ keypath, locale, value }`).  All fields are optional
because the elements are untyped (`any`) in the source. -/
structure MsgItem where
  keypath : Option String
  locale : Option String
  value : Option String
deriving DecidableEq, Repr

/-- Inbound message envelope (`Message` interface of the source).
`data` payloads are opaque and modelled as `Nat` tokens. -/
structure Message where
  type : String
  _id : Option Int
  keypath : Option String
  locale : Option String
  value : Option String
  route : Option String
  data : Option Nat
  commentId : Option String
  items : Option (List MsgItem)
deriving DecidableEq, Repr

/-- A message carrying only a `type`, every optional field absent. -/
def Message.base (t : String) : Message :=
  ⟨t, none, none, none, none, none, none, none, none⟩

/-- Metadata of a locale record; only its `namespace` field is read
(`record?.meta?.namespace` in `setRecords`). -/
structure RecordMeta where
  «namespace» : Option String
deriving DecidableEq, Repr

/-- A locale record as returned by the loader's `getRecordByKey`. -/
structure LocaleRecord where
  keypath : String
  locale : String
  value : String
  filepath : Option String
  meta : Option RecordMeta
deriving DecidableEq, Repr

/-- An enriched item of the batched `loader.write` call built by
`setRecords`. -/
structure PendingWrite where
  keypath : Option String
  locale : Option String
  value : Option String
  filepath : Option String
  «namespace» : Option String
deriving DecidableEq, Repr

/-- A key detected in a document (`KeyInDocument` of the core, plus the
`value` field added by the augmentation in `sendCurrentFileContext`;
the remaining positional fields of the external type are collapsed into
an opaque `rest` token). -/
structure KeyInDocument where
  key : String
  rest : Nat
  value : Option String
deriving DecidableEq, Repr

/-- The `EditorContext` class of the source: both fields optional. -/
structure EditorContext where
  filepath : Option String
  keys : Option (List KeyInDocument)
deriving DecidableEq, Repr

/-- The empty context `{}` (both fields absent). -/
def EditorContext.empty : EditorContext := ⟨none, none⟩

/-- A value of the config snapshot object: a flag, a string, a string
list, or the opaque review-user identity. -/
inductive ConfigValue where
  | bool (b : Bool)
  | str (s : String)
  | strs (l : List String)
  | user (u : Nat)
deriving DecidableEq, Repr

/-- The payload of a reply built by the local `reply` closure in
`handleMessages`: either one (possibly absent) record (`get_record`) or a
list of them (`get_records`). -/
inductive ReplyData where
  | record (r : Option LocaleRecord)
  | records (rs : List (Option LocaleRecord))
deriving DecidableEq, Repr

/-- The `data` object of the `route`/`open-key` message built by `openKey`.
`records` and `reviews` are the opaque results of `getShadowLocales` and
`getReviews`. -/
structure RouteData where
  locale : Option String
  keypath : String
  records : Nat
  reviews : Nat
  keyIndex : Option Nat
deriving DecidableEq, Repr

/-- A message queued by the component for delivery to the UI.  The five
typed shapes correspond to the literal `type` values built in the source;
`reply` is the object `{ ...data, _id }` built by the `reply` closure
(it carries no `type` field of its own). -/
inductive OutMessage where
  | ready
  | config (data : List (String × ConfigValue))
  | i18n (data : Nat)
  | route (routeName : String) (data : RouteData)
  | context (data : EditorContext)
  | reply (data : ReplyData) (_id : Option Int)
deriving DecidableEq, Repr

/-- The `type` field an outbound message would carry on the wire:
the literal string for the five typed shapes, absent for a spread reply. -/
def OutMessage.typeName : OutMessage → Option String
  | .ready => some "ready"
  | .config _ => some "config"
  | .i18n _ => some "i18n"
  | .route _ _ => some "route"
  | .context _ => some "context"
  | .reply _ _ => none

/-- Whether an outbound message is a correlated reply. -/
def OutMessage.isReply : OutMessage → Bool
  | .reply _ _ => true
  | _ => false

/-- One observable external action of the component. -/
inductive Effect where
  | deliver (m : OutMessage)
  | write (pendings : List PendingWrite)
  | translateKeys (data : Option Nat)
  | promptEditDescription (keypath : Option String)
  | addComment (keypath locale : Option String) (data : Option Nat)
  | editComment (keypath locale : Option String) (data : Option Nat)
  | resolveComment (keypath locale commentId : Option String)
  | applySuggestion (keypath locale commentId : Option String)
  | executeCommand (cmd : String) (arg : Option String)
  | applyTranslationCandidate (keypath locale : Option String)
  | promptEditTranslation (keypath locale : Option String)
  | discardTranslationCandidate (keypath locale : Option String)
deriving DecidableEq, Repr

/-- The active editor document (`window.activeTextEditor?.document`):
only its `languageId` and `uri.fsPath` are read. -/
structure Document where
  languageId : String
  fsPath : String
deriving DecidableEq, Repr

/-- The document/localization loader interface consumed by the class.
`getRecordByKey` takes optional strings because `handleMessages` forwards
`message.keypath!` / `message.locale!`, which may be absent at runtime.
Key nodes and shadow-locale tables are opaque `Nat` tokens. -/
structure Loader where
  getRecordByKey : Option String → Option String → Bool → Option LocaleRecord
  getNodeByKey : String → Bool → Option Nat
  getValueByKey : String → Option String
  getShadowLocales : Nat → Nat

/-- The external collaborators and ambient configuration the class reads. -/
structure Env where
  loader : Loader
  extendHandler : Option (Message → Option Bool)
  extendConfig : List (String × ConfigValue)
  getReviews : String → Nat
  i18nMessages : Nat
  debug : Bool
  reviewEnabled : Bool
  globalLoaderLocales : Option (List String)
  getFlagName : String → String
  sourceLanguage : String
  displayLanguage : String
  enabledFrameworks : List String
  ignoredLocales : List String
  translateOverrideExisting : Bool
  reviewUser : Nat
  activeDocument : Option Document
  isLanguageIdSupported : String → Bool
  getKeys : Document → Option (List KeyInDocument)
  extId : String
  openEditorCommand : String

/-- The mutable session state of a `Protocol` instance. -/
structure ProtoState where
  ready : Bool
  pendingMessages : List OutMessage
  _editing_key : Option String
  _mode : Mode
deriving DecidableEq, Repr

/-- The state a freshly constructed `Protocol` starts in (field
initializers of the class). -/
def ProtoState.initial : ProtoState := ⟨false, [], none, Mode.standalone⟩

namespace Protocol

/-- `postMessage(message)`: append to the pending queue; when `ready`,
atomically swap the queue for an empty one and deliver every buffered
message, in order, through the injected transport. -/
def postMessage (s : ProtoState) (message : OutMessage) : ProtoState × List Effect :=
  let s1 : ProtoState := { s with pendingMessages := s.pendingMessages ++ [message] }
  if s1.ready then
    ({ s1 with pendingMessages := [] }, s1.pendingMessages.map Effect.deliver)
  else
    (s1, [])

/-- The JavaScript spread merge `{ ...base, ...ext }` on shallow string-keyed
objects: `ext` values win on key collision, keys of `base` keep their
position, new keys of `ext` follow. -/
def spreadMerge (base ext : List (String × ConfigValue)) : List (String × ConfigValue) :=
  base.map (fun kv =>
    match ext.find? (fun kv2 => kv2.1 == kv.1) with
    | some kv2 => (kv.1, kv2.2)
    | none => kv)
  ++ ext.filter (fun kv2 => !(base.any (fun kv => kv.1 == kv2.1)))

/-- The `config` getter: the snapshot object, merged with the
caller-supplied `options?.extendConfig` fields. -/
def config (env : Env) : List (String × ConfigValue) :=
  let locales := env.globalLoaderLocales.getD []
  spreadMerge
    [("debug", ConfigValue.bool env.debug),
     ("review", ConfigValue.bool env.reviewEnabled),
     ("locales", ConfigValue.strs locales),
     ("flags", ConfigValue.strs (locales.map env.getFlagName)),
     ("sourceLanguage", ConfigValue.str env.sourceLanguage),
     ("displayLanguage", ConfigValue.str env.displayLanguage),
     ("enabledFrameworks", ConfigValue.strs env.enabledFrameworks),
     ("ignoredLocales", ConfigValue.strs env.ignoredLocales),
     ("translateOverrideExisting", ConfigValue.bool env.translateOverrideExisting),
     ("user", ConfigValue.user env.reviewUser)]
    env.extendConfig

/-- `updateConfig()`: queue a `config` message with the snapshot. -/
def updateConfig (env : Env) (s : ProtoState) : ProtoState × List Effect :=
  postMessage s (OutMessage.config (config env))

/-- `updateI18nMessages()`: queue an `i18n` message with the UI strings. -/
def updateI18nMessages (env : Env) (s : ProtoState) : ProtoState × List Effect :=
  postMessage s (OutMessage.i18n env.i18nMessages)

/-- `setRecords(items)`: enrich each item with the `filepath` and
`namespace` resolved from the loader's record lookup, then issue the
single batched `loader.write` call.  The session state is untouched. -/
def setRecords (env : Env) (items : List MsgItem) : List Effect :=
  let pendings := items.map (fun it =>
    let record := env.loader.getRecordByKey it.keypath it.locale true
    PendingWrite.mk it.keypath it.locale it.value
      (record.bind LocaleRecord.filepath)
      ((record.bind LocaleRecord.meta).bind RecordMeta.«namespace»))
  [Effect.write pendings]

/-- `setContext(context)`: queue a `context` message. -/
def setContext (s : ProtoState) (context : EditorContext) : ProtoState × List Effect :=
  postMessage s (OutMessage.context context)

/-- The result of `sendCurrentFileContext`: new state, effect trace, and
the boolean return value. -/
structure CtxResult where
  state : ProtoState
  effects : List Effect
  ret : Bool
deriving DecidableEq, Repr

/-- `sendCurrentFileContext()`: in `standalone` mode first queue an empty
context; then, if no document is active, its language is unsupported, or
no keys are detected, return `false`; otherwise augment each detected key
with its resolved current value, queue the populated context and return
`true`. -/
def sendCurrentFileContext (env : Env) (s : ProtoState) : CtxResult :=
  let r0 := if s._mode = Mode.standalone then setContext s EditorContext.empty else (s, [])
  match env.activeDocument with
  | none => ⟨r0.1, r0.2, false⟩
  | some doc =>
    if !(env.isLanguageIdSupported doc.languageId) then ⟨r0.1, r0.2, false⟩
    else
      let keys := (env.getKeys doc).getD []
      if keys.isEmpty then ⟨r0.1, r0.2, false⟩
      else
        let keys2 := keys.map (fun k => { k with value := env.loader.getValueByKey k.key })
        let r1 := setContext r0.1 ⟨some doc.fsPath, some keys2⟩
        ⟨r1.1, r0.2 ++ r1.2, true⟩

/-- `openKey(keypath, locale?, index?)`: look the node up (create-if-missing);
when found, record the currently-editing key, queue the `route`/`open-key`
message and refresh the file context; when absent, do nothing. -/
def openKey (env : Env) (s : ProtoState) (keypath : String)
    (locale : Option String) (index : Option Nat) : ProtoState × List Effect :=
  match env.loader.getNodeByKey keypath true with
  | some node =>
    let s1 : ProtoState := { s with _editing_key := some keypath }
    let r1 := postMessage s1 (OutMessage.route "open-key"
      ⟨locale, keypath, env.loader.getShadowLocales node, env.getReviews keypath, index⟩)
    let r2 := sendCurrentFileContext env r1.1
    (r2.state, r1.2 ++ r2.effects)
  | none => (s, [])

/-- Whether the externally supplied extension hook reports the message as
handled (`this.extendHandler ? await ... : undefined`, then a truthiness
test). -/
def handledByHook (env : Env) (message : Message) : Bool :=
  match env.extendHandler with
  | none => false
  | some h => (h message).getD false

/-- The result of one `handleMessages` call: new state, effect trace, and
whether a runtime `TypeError` escaped (accessing `.map` on an absent
`items`). -/
structure DispatchResult where
  state : ProtoState
  effects : List Effect
  errored : Bool
deriving DecidableEq, Repr

/-- The `ready` case of the dispatch switch: set the flag, echo the
acknowledgement, then push the config snapshot and the UI strings. -/
def handleReady (env : Env) (s : ProtoState) : ProtoState × List Effect :=
  let r1 := postMessage { s with ready := true } OutMessage.ready
  let r2 := updateConfig env r1.1
  let r3 := updateI18nMessages env r2.1
  (r3.1, r1.2 ++ r2.2 ++ r3.2)

/-- `handleMessages(message)`: offer the message to the extension hook,
then switch on `message.type`. -/
def handleMessages (env : Env) (s : ProtoState) (message : Message) : DispatchResult :=
  if handledByHook env message then ⟨s, [], false⟩
  else if message.type = "ready" then
    ⟨(handleReady env s).1, (handleReady env s).2, false⟩
  else if message.type = "init" then
    let r := updateI18nMessages env s
    ⟨r.1, r.2, false⟩
  else if message.type = "get_record" then
    let r := postMessage s (OutMessage.reply
      (ReplyData.record (env.loader.getRecordByKey message.keypath message.locale true))
      message._id)
    ⟨r.1, r.2, false⟩
  else if message.type = "set_record" then
    ⟨s, setRecords env [⟨message.keypath, message.locale, message.value⟩], false⟩
  else if message.type = "get_records" then
    match message.items with
    | none => ⟨s, [], true⟩
    | some items =>
      let r := postMessage s (OutMessage.reply
        (ReplyData.records (items.map (fun i =>
          env.loader.getRecordByKey i.keypath i.locale true)))
        message._id)
      ⟨r.1, r.2, false⟩
  else if message.type = "set_records" then
    match message.items with
    | none => ⟨s, [], true⟩
    | some items => ⟨s, setRecords env items, false⟩
  else if message.type = "translate" then
    ⟨s, [Effect.translateKeys message.data], false⟩
  else if message.type = "review.description" then
    ⟨s, [Effect.promptEditDescription message.keypath], false⟩
  else if message.type = "review.comment" then
    ⟨s, [Effect.addComment message.keypath message.locale message.data], false⟩
  else if message.type = "review.edit" then
    ⟨s, [Effect.editComment message.keypath message.locale message.data], false⟩
  else if message.type = "review.resolve" then
    ⟨s, [Effect.resolveComment message.keypath message.locale message.commentId], false⟩
  else if message.type = "review.apply-suggestion" then
    ⟨s, [Effect.applySuggestion message.keypath message.locale message.commentId], false⟩
  else if message.type = "open-builtin-settings" then
    ⟨s, [Effect.executeCommand "workbench.extensions.action.configure" (some env.extId)], false⟩
  else if message.type = "open-search" then
    ⟨s, [Effect.executeCommand env.openEditorCommand none], false⟩
  else if message.type = "translation.apply" then
    ⟨s, [Effect.applyTranslationCandidate message.keypath message.locale], false⟩
  else if message.type = "translation.edit" then
    ⟨s, [Effect.promptEditTranslation message.keypath message.locale], false⟩
  else if message.type = "translation.discard" then
    ⟨s, [Effect.discardTranslationCandidate message.keypath message.locale], false⟩
  else
    ⟨s, [], false⟩

/-- A sequence of `postMessage` calls, states threaded, traces concatenated. -/
def postMany (s : ProtoState) (msgs : List OutMessage) : ProtoState × List Effect :=
  match msgs with
  | [] => (s, [])
  | m :: rest =>
    let r1 := postMessage s m
    let r2 := postMany r1.1 rest
    (r2.1, r1.2 ++ r2.2)

end Protocol

/-- The messages delivered through the transport in an effect trace, in
order. -/
def deliveredOf (effects : List Effect) : List OutMessage :=
  effects.filterMap (fun e =>
    match e with
    | Effect.deliver m => some m
    | _ => none)

/-- The messages a call newly queued for the UI: everything it delivered
plus everything still pending afterwards, minus the messages that were
already pending before the call. -/
def queuedBy (pre post : ProtoState) (effects : List Effect) : List OutMessage :=
  (deliveredOf effects ++ post.pendingMessages).drop pre.pendingMessages.length

namespace Protocol

theorem postMessage_ready_eq (s : ProtoState) (m : OutMessage) :
    (postMessage s m).1.ready = s.ready := by
  simp [postMessage]
  split <;> simp

theorem postMessage_editing_eq (s : ProtoState) (m : OutMessage) :
    (postMessage s m).1._editing_key = s._editing_key := by
  simp [postMessage]
  split <;> simp

theorem postMessage_mode_eq (s : ProtoState) (m : OutMessage) :
    (postMessage s m).1._mode = s._mode := by
  simp [postMessage]
  split <;> simp

theorem postMessage_not_ready (s : ProtoState) (m : OutMessage) (h : s.ready = false) :
    postMessage s m = ({ s with pendingMessages := s.pendingMessages ++ [m] }, []) := by
  simp [postMessage, h]

theorem postMessage_is_ready (s : ProtoState) (m : OutMessage) (h : s.ready = true) :
    postMessage s m
      = ({ s with pendingMessages := [] }, (s.pendingMessages ++ [m]).map Effect.deliver) := by
  simp [postMessage, h]

theorem postMany_not_ready (msgs : List OutMessage) (s : ProtoState) (h : s.ready = false) :
    postMany s msgs = ({ s with pendingMessages := s.pendingMessages ++ msgs }, []) := by
  induction msgs generalizing s with
  | nil => simp [postMany]
  | cons m rest ih =>
    rw [postMany, postMessage_not_ready s m h]
    rw [ih { s with pendingMessages := s.pendingMessages ++ [m] } h]
    simp

theorem postMany_is_ready (msgs : List OutMessage) (s : ProtoState) (h : s.ready = true)
    (hne : msgs ≠ []) :
    postMany s msgs
      = ({ s with pendingMessages := [] },
         (s.pendingMessages ++ msgs).map Effect.deliver) := by
  induction msgs generalizing s with
  | nil => exact absurd rfl hne
  | cons m rest ih =>
    rw [postMany, postMessage_is_ready s m h]
    cases rest with
    | nil => simp [postMany]
    | cons m2 rest2 =>
      rw [ih { s with pendingMessages := [] } h (by simp)]
      simp

end Protocol

/-- Claim C1: while `ready` is false every `postMessage` call only
accumulates (no delivery, queue extended in order, duplicates kept); with
`ready` true, a sequence of calls delivers the prior buffer and the new
messages exactly once, in enqueue order, and empties the queue; and
processing a `ready` message delivers every buffered message exactly once,
in original enqueue order, followed by the readiness replies. -/
theorem claim1_queue_gate (s t : ProtoState) (msgs : List OutMessage)
    (env : Env) (rm : Message)
    (hs : s.ready = false) (ht : t.ready = true) (hne : msgs ≠ [])
    (hh : Protocol.handledByHook env rm = false) (hr : rm.type = "ready") :
    (Protocol.postMany s msgs).2 = []
    ∧ (Protocol.postMany s msgs).1.pendingMessages = s.pendingMessages ++ msgs
    ∧ (Protocol.postMany t msgs).2 = (t.pendingMessages ++ msgs).map Effect.deliver
    ∧ (Protocol.postMany t msgs).1.pendingMessages = []
    ∧ (Protocol.handleMessages env s rm).effects
        = (s.pendingMessages
            ++ [OutMessage.ready, OutMessage.config (Protocol.config env),
                OutMessage.i18n env.i18nMessages]).map Effect.deliver := by
  refine ⟨?_, ?_, ?_, ?_, ?_⟩
  · rw [Protocol.postMany_not_ready msgs s hs]
  · rw [Protocol.postMany_not_ready msgs s hs]
  · rw [Protocol.postMany_is_ready msgs t ht hne]
  · rw [Protocol.postMany_is_ready msgs t ht hne]
  · simp [Protocol.handleMessages, hh, hr, Protocol.handleReady, Protocol.updateConfig,
      Protocol.updateI18nMessages, Protocol.postMessage]

/-- A loader whose lookups all fail, for concrete evaluations. -/
def sampleLoader : Loader :=
  ⟨fun _ _ _ => none, fun _ _ => none, fun _ => none, fun _ => 0⟩

/-- A minimal concrete environment: no hook, no document, empty settings. -/
def sampleEnv : Env :=
  { loader := sampleLoader
    extendHandler := none
    extendConfig := []
    getReviews := fun _ => 0
    i18nMessages := 0
    debug := false
    reviewEnabled := false
    globalLoaderLocales := none
    getFlagName := fun _ => ""
    sourceLanguage := "en"
    displayLanguage := "en"
    enabledFrameworks := []
    ignoredLocales := []
    translateOverrideExisting := false
    reviewUser := 0
    activeDocument := none
    isLanguageIdSupported := fun _ => false
    getKeys := fun _ => none
    extId := "lokalise.i18n-ally"
    openEditorCommand := "i18n-ally.open-editor" }

/-- A session state whose gate is already open. -/
def readyState : ProtoState := ⟨true, [], none, Mode.standalone⟩

theorem claim1_queue_gate_witness :
    (Protocol.postMany ProtoState.initial [OutMessage.ready, OutMessage.ready]).2 = []
    ∧ (Protocol.postMany ProtoState.initial
        [OutMessage.ready, OutMessage.ready]).1.pendingMessages
        = [OutMessage.ready, OutMessage.ready]
    ∧ (Protocol.postMany readyState [OutMessage.ready, OutMessage.ready]).2
        = [Effect.deliver OutMessage.ready, Effect.deliver OutMessage.ready]
    ∧ (Protocol.postMany readyState [OutMessage.ready, OutMessage.ready]).1.pendingMessages = []
    ∧ (Protocol.handleMessages sampleEnv ProtoState.initial (Message.base "ready")).effects
        = [Effect.deliver OutMessage.ready,
           Effect.deliver (OutMessage.config (Protocol.config sampleEnv)),
           Effect.deliver (OutMessage.i18n 0)] := by
  have h := claim1_queue_gate ProtoState.initial readyState
    [OutMessage.ready, OutMessage.ready] sampleEnv (Message.base "ready")
    rfl rfl (by simp) rfl rfl
  simpa [ProtoState.initial, readyState, sampleEnv] using h

theorem deliveredOf_map_deliver (xs : List OutMessage) :
    deliveredOf (xs.map Effect.deliver) = xs := by
  induction xs with
  | nil => rfl
  | cons m rest ih =>
    simp only [deliveredOf, List.map_cons, List.filterMap_cons] at ih ⊢
    simp [ih]

theorem deliveredOf_append (xs ys : List Effect) :
    deliveredOf (xs ++ ys) = deliveredOf xs ++ deliveredOf ys := by
  simp [deliveredOf]

namespace Protocol

theorem setContext_ready_eq (s : ProtoState) (ctx : EditorContext) :
    (setContext s ctx).1.ready = s.ready :=
  postMessage_ready_eq s (OutMessage.context ctx)

theorem updateConfig_ready_eq (env : Env) (s : ProtoState) :
    (updateConfig env s).1.ready = s.ready :=
  postMessage_ready_eq s (OutMessage.config (config env))

theorem updateI18nMessages_ready_eq (env : Env) (s : ProtoState) :
    (updateI18nMessages env s).1.ready = s.ready :=
  postMessage_ready_eq s (OutMessage.i18n env.i18nMessages)

theorem sendCurrentFileContext_ready_eq (env : Env) (s : ProtoState) :
    (sendCurrentFileContext env s).state.ready = s.ready := by
  unfold sendCurrentFileContext
  repeat' split
  all_goals try simp [setContext, postMessage_ready_eq]
  all_goals repeat' split
  all_goals simp [postMessage_ready_eq]

theorem openKey_ready_eq (env : Env) (s : ProtoState) (k : String)
    (l : Option String) (i : Option Nat) :
    (openKey env s k l i).1.ready = s.ready := by
  unfold openKey
  split
  · rw [sendCurrentFileContext_ready_eq, postMessage_ready_eq]
  · rfl

theorem handleMessages_ready_eq (env : Env) (s : ProtoState) (msg : Message) :
    (handleMessages env s msg).state.ready
      = (s.ready || (!(handledByHook env msg) && decide (msg.type = "ready"))) := by
  unfold handleMessages
  cases hhook : handledByHook env msg with
  | true => simp [hhook]
  | false =>
    rw [if_neg (by simp [hhook])]
    simp only [hhook, Bool.not_false, Bool.true_and]
    by_cases h0 : msg.type = "ready"
    · rw [if_pos h0]
      simp [h0, handleReady, updateConfig, updateI18nMessages, postMessage_ready_eq]
    rw [if_neg h0]
    have hd : decide (msg.type = "ready") = false := by simp [h0]
    rw [hd, Bool.or_false]
    by_cases h1 : msg.type = "init"
    · rw [if_pos h1]
      simp [updateI18nMessages, postMessage_ready_eq]
    rw [if_neg h1]
    by_cases h2 : msg.type = "get_record"
    · rw [if_pos h2]
      try simp [postMessage_ready_eq]
    rw [if_neg h2]
    by_cases h3 : msg.type = "set_record"
    · rw [if_pos h3]
      try simp [postMessage_ready_eq]
    rw [if_neg h3]
    by_cases h4 : msg.type = "get_records"
    · rw [if_pos h4]
      cases msg.items <;> simp [postMessage_ready_eq]
    rw [if_neg h4]
    by_cases h5 : msg.type = "set_records"
    · rw [if_pos h5]
      cases msg.items <;> simp [postMessage_ready_eq]
    rw [if_neg h5]
    by_cases h6 : msg.type = "translate"
    · rw [if_pos h6]
      try simp [postMessage_ready_eq]
    rw [if_neg h6]
    by_cases h7 : msg.type = "review.description"
    · rw [if_pos h7]
      try simp [postMessage_ready_eq]
    rw [if_neg h7]
    by_cases h8 : msg.type = "review.comment"
    · rw [if_pos h8]
      try simp [postMessage_ready_eq]
    rw [if_neg h8]
    by_cases h9 : msg.type = "review.edit"
    · rw [if_pos h9]
      try simp [postMessage_ready_eq]
    rw [if_neg h9]
    by_cases h10 : msg.type = "review.resolve"
    · rw [if_pos h10]
      try simp [postMessage_ready_eq]
    rw [if_neg h10]
    by_cases h11 : msg.type = "review.apply-suggestion"
    · rw [if_pos h11]
      try simp [postMessage_ready_eq]
    rw [if_neg h11]
    by_cases h12 : msg.type = "open-builtin-settings"
    · rw [if_pos h12]
      try simp [postMessage_ready_eq]
    rw [if_neg h12]
    by_cases h13 : msg.type = "open-search"
    · rw [if_pos h13]
      try simp [postMessage_ready_eq]
    rw [if_neg h13]
    by_cases h14 : msg.type = "translation.apply"
    · rw [if_pos h14]
      try simp [postMessage_ready_eq]
    rw [if_neg h14]
    by_cases h15 : msg.type = "translation.edit"
    · rw [if_pos h15]
      try simp [postMessage_ready_eq]
    rw [if_neg h15]
    by_cases h16 : msg.type = "translation.discard"
    · rw [if_pos h16]
      try simp [postMessage_ready_eq]
    rw [if_neg h16]

end Protocol

/-- Claim C2: the ready flag starts false, `handleMessages` sets it to true
exactly when an unintercepted message of type `ready` arrives, no operation
of the component ever resets it, and on the transition the dispatcher
queues the `ready` acknowledgement, the `config` snapshot and the `i18n`
messages, in that order. -/
theorem claim2_ready_transition (env : Env) (s : ProtoState) (msg msg2 : Message)
    (m : OutMessage) (k : String) (l : Option String) (i : Option Nat)
    (ctx : EditorContext)
    (hh : Protocol.handledByHook env msg = false) (hr : msg.type = "ready") :
    ProtoState.initial.ready = false
    ∧ (Protocol.handleMessages env s msg2).state.ready
        = (s.ready || (!(Protocol.handledByHook env msg2) && decide (msg2.type = "ready")))
    ∧ (Protocol.postMessage s m).1.ready = s.ready
    ∧ (Protocol.setContext s ctx).1.ready = s.ready
    ∧ (Protocol.updateConfig env s).1.ready = s.ready
    ∧ (Protocol.updateI18nMessages env s).1.ready = s.ready
    ∧ (Protocol.sendCurrentFileContext env s).state.ready = s.ready
    ∧ (Protocol.openKey env s k l i).1.ready = s.ready
    ∧ (Protocol.handleMessages env s msg).state.ready = true
    ∧ queuedBy s (Protocol.handleMessages env s msg).state
        (Protocol.handleMessages env s msg).effects
        = [OutMessage.ready, OutMessage.config (Protocol.config env),
           OutMessage.i18n env.i18nMessages] := by
  refine ⟨rfl, Protocol.handleMessages_ready_eq env s msg2,
    Protocol.postMessage_ready_eq s m, Protocol.setContext_ready_eq s ctx,
    Protocol.updateConfig_ready_eq env s, Protocol.updateI18nMessages_ready_eq env s,
    Protocol.sendCurrentFileContext_ready_eq env s,
    Protocol.openKey_ready_eq env s k l i, ?_, ?_⟩
  · rw [Protocol.handleMessages_ready_eq]
    simp [hh, hr]
  · simp [Protocol.handleMessages, hh, hr, Protocol.handleReady, Protocol.updateConfig,
      Protocol.updateI18nMessages, Protocol.postMessage, queuedBy,
      deliveredOf_append, deliveredOf_map_deliver, deliveredOf, List.drop_left]

theorem claim2_ready_transition_witness :
    ProtoState.initial.ready = false
    ∧ (Protocol.handleMessages sampleEnv ProtoState.initial
        (Message.base "translate")).state.ready
        = (ProtoState.initial.ready
            || (!(Protocol.handledByHook sampleEnv (Message.base "translate"))
                && decide ((Message.base "translate").type = "ready")))
    ∧ (Protocol.postMessage ProtoState.initial OutMessage.ready).1.ready
        = ProtoState.initial.ready
    ∧ (Protocol.setContext ProtoState.initial EditorContext.empty).1.ready
        = ProtoState.initial.ready
    ∧ (Protocol.updateConfig sampleEnv ProtoState.initial).1.ready
        = ProtoState.initial.ready
    ∧ (Protocol.updateI18nMessages sampleEnv ProtoState.initial).1.ready
        = ProtoState.initial.ready
    ∧ (Protocol.sendCurrentFileContext sampleEnv ProtoState.initial).state.ready
        = ProtoState.initial.ready
    ∧ (Protocol.openKey sampleEnv ProtoState.initial "a.b" none none).1.ready
        = ProtoState.initial.ready
    ∧ (Protocol.handleMessages sampleEnv ProtoState.initial
        (Message.base "ready")).state.ready = true
    ∧ queuedBy ProtoState.initial
        (Protocol.handleMessages sampleEnv ProtoState.initial (Message.base "ready")).state
        (Protocol.handleMessages sampleEnv ProtoState.initial (Message.base "ready")).effects
        = [OutMessage.ready, OutMessage.config (Protocol.config sampleEnv),
           OutMessage.i18n sampleEnv.i18nMessages] :=
  claim2_ready_transition sampleEnv ProtoState.initial (Message.base "ready")
    (Message.base "translate") OutMessage.ready "a.b" none none EditorContext.empty
    rfl rfl

theorem queuedBy_postMessage (s : ProtoState) (m : OutMessage) :
    queuedBy s (Protocol.postMessage s m).1 (Protocol.postMessage s m).2 = [m] := by
  cases h : s.ready
  · rw [Protocol.postMessage_not_ready s m h]
    simp [queuedBy, deliveredOf, List.drop_left]
  · rw [Protocol.postMessage_is_ready s m h]
    simp [queuedBy, deliveredOf_append, deliveredOf_map_deliver, deliveredOf, List.drop_left]

/-- Claim C9: when the extension hook reports a message handled, the
built-in dispatch performs nothing: the session state, the effect trace
and the error flag are untouched. -/
theorem claim9_hook_intercepts (env : Env) (s : ProtoState) (msg : Message)
    (h : Protocol.handledByHook env msg = true) :
    Protocol.handleMessages env s msg = ⟨s, [], false⟩ := by
  simp [Protocol.handleMessages, h]

/-- An environment whose extension hook absorbs every message. -/
def hookAllEnv : Env := { sampleEnv with extendHandler := some (fun _ => some true) }

theorem claim9_hook_intercepts_witness :
    Protocol.handleMessages hookAllEnv ProtoState.initial (Message.base "ready")
      = ⟨ProtoState.initial, [], false⟩ :=
  claim9_hook_intercepts hookAllEnv ProtoState.initial (Message.base "ready") rfl

/-- Claim C3: a `get_record` or `get_records` request carrying a
correlation id `n` queues exactly one message, a reply whose `_id` is
`n`. -/
theorem claim3_reply_correlation (env : Env) (s : ProtoState) (msg : Message) (n : Int)
    (hh : Protocol.handledByHook env msg = false)
    (hid : msg._id = some n)
    (ht : msg.type = "get_record" ∨ (msg.type = "get_records" ∧ msg.items ≠ none)) :
    ∃ d, queuedBy s (Protocol.handleMessages env s msg).state
        (Protocol.handleMessages env s msg).effects
      = [OutMessage.reply d (some n)] := by
  rcases ht with ht | ⟨ht, hitems⟩
  · refine ⟨ReplyData.record (env.loader.getRecordByKey msg.keypath msg.locale true), ?_⟩
    simp [Protocol.handleMessages, hh, ht, hid, queuedBy_postMessage]
  · cases hxs : msg.items with
    | none => exact absurd hxs hitems
    | some xs =>
      refine ⟨ReplyData.records (xs.map (fun i =>
        env.loader.getRecordByKey i.keypath i.locale true)), ?_⟩
      simp [Protocol.handleMessages, hh, ht, hxs, hid, queuedBy_postMessage]

/-- A loader whose lookups succeed and echo the requested key and locale,
so that reply contents are distinguishable in concrete runs. -/
def echoLoader : Loader :=
  ⟨fun k l _ => some ⟨k.getD "", l.getD "", "v", some ((k.getD "") ++ ".json"),
      some ⟨some (k.getD "")⟩⟩,
   fun _ _ => some 1,
   fun k => some ("val:" ++ k),
   fun n => n + 1⟩

/-- `sampleEnv` with the echoing loader. -/
def echoEnv : Env := { sampleEnv with loader := echoLoader }

/-- A concrete `get_record` request with correlation id 42. -/
def getRecordMsg : Message :=
  { Message.base "get_record" with
    _id := some 42
    keypath := some "a.b"
    locale := some "en" }

theorem claim3_reply_correlation_witness :
    ∃ d, queuedBy ProtoState.initial
        (Protocol.handleMessages echoEnv ProtoState.initial getRecordMsg).state
        (Protocol.handleMessages echoEnv ProtoState.initial getRecordMsg).effects
      = [OutMessage.reply d (some 42)] :=
  claim3_reply_correlation echoEnv ProtoState.initial getRecordMsg
    42 rfl rfl (Or.inl rfl)

/-- Claim C8: a `get_records` request with items `xs` queues exactly one
reply whose data is the loader record (create-if-missing) of each item,
in input order: the data is `xs.map`, has the length of `xs`, and its
`j`-th entry is the lookup of `xs`'s `j`-th item. -/
theorem claim8_get_records_order (env : Env) (s : ProtoState) (msg : Message)
    (xs : List MsgItem)
    (hh : Protocol.handledByHook env msg = false)
    (ht : msg.type = "get_records") (hi : msg.items = some xs) :
    queuedBy s (Protocol.handleMessages env s msg).state
        (Protocol.handleMessages env s msg).effects
      = [OutMessage.reply (ReplyData.records (xs.map (fun i =>
          env.loader.getRecordByKey i.keypath i.locale true))) msg._id]
    ∧ (xs.map (fun i => env.loader.getRecordByKey i.keypath i.locale true)).length
        = xs.length
    ∧ ∀ j : Nat, (xs.map (fun i => env.loader.getRecordByKey i.keypath i.locale true))[j]?
        = (xs[j]?).map (fun i => env.loader.getRecordByKey i.keypath i.locale true) := by
  refine ⟨?_, by simp, fun j => by simp⟩
  simp [Protocol.handleMessages, hh, ht, hi, queuedBy_postMessage]

/-- A concrete `get_records` request with two items and correlation id 7. -/
def getRecordsMsg : Message :=
  { Message.base "get_records" with
    _id := some 7
    items := some [⟨some "a", some "en", none⟩, ⟨some "b", some "fr", none⟩] }

theorem claim8_get_records_order_witness :
    queuedBy ProtoState.initial
        (Protocol.handleMessages echoEnv ProtoState.initial getRecordsMsg).state
        (Protocol.handleMessages echoEnv ProtoState.initial getRecordsMsg).effects
      = [OutMessage.reply (ReplyData.records
          [some ⟨"a", "en", "v", some "a.json", some ⟨some "a"⟩⟩,
           some ⟨"b", "fr", "v", some "b.json", some ⟨some "b"⟩⟩]) (some 7)] := by
  have h := claim8_get_records_order echoEnv ProtoState.initial getRecordsMsg
    [⟨some "a", some "en", none⟩, ⟨some "b", some "fr", none⟩]
    rfl rfl rfl
  simpa [echoEnv, echoLoader, sampleEnv] using h.1

/-- Claim C4: `set_records` (and a single item via `set_record`) issues
exactly one loader write whose argument is the input list in order, each
item enriched with the `filepath` and `namespace` resolved from the
loader's record lookup; no other effect and no state change occurs. -/
theorem claim4_set_records_write (env : Env) (s : ProtoState) (msg msg2 : Message)
    (xs : List MsgItem)
    (hh : Protocol.handledByHook env msg = false)
    (ht : msg.type = "set_records") (hi : msg.items = some xs)
    (hh2 : Protocol.handledByHook env msg2 = false)
    (ht2 : msg2.type = "set_record") :
    Protocol.handleMessages env s msg
      = ⟨s, [Effect.write (xs.map (fun it =>
          PendingWrite.mk it.keypath it.locale it.value
            ((env.loader.getRecordByKey it.keypath it.locale true).bind LocaleRecord.filepath)
            (((env.loader.getRecordByKey it.keypath it.locale true).bind
                LocaleRecord.meta).bind RecordMeta.«namespace»)))], false⟩
    ∧ Protocol.handleMessages env s msg2
      = ⟨s, [Effect.write [PendingWrite.mk msg2.keypath msg2.locale msg2.value
          ((env.loader.getRecordByKey msg2.keypath msg2.locale true).bind LocaleRecord.filepath)
          (((env.loader.getRecordByKey msg2.keypath msg2.locale true).bind
              LocaleRecord.meta).bind RecordMeta.«namespace»)]], false⟩ := by
  constructor
  · simp [Protocol.handleMessages, hh, ht, hi, Protocol.setRecords]
  · simp [Protocol.handleMessages, hh2, ht2, Protocol.setRecords]

/-- A concrete `set_records` request with one item. -/
def setRecordsMsg : Message :=
  { Message.base "set_records" with
    items := some [⟨some "a.b", some "en", some "X"⟩] }

/-- A concrete `set_record` request with the same item inline. -/
def setRecordMsg : Message :=
  { Message.base "set_record" with
    keypath := some "a.b"
    locale := some "en"
    value := some "X" }

theorem claim4_set_records_write_witness :
    Protocol.handleMessages echoEnv ProtoState.initial setRecordsMsg
      = ⟨ProtoState.initial,
         [Effect.write [⟨some "a.b", some "en", some "X", some "a.b.json", some "a.b"⟩]],
         false⟩
    ∧ Protocol.handleMessages echoEnv ProtoState.initial setRecordMsg
      = ⟨ProtoState.initial,
         [Effect.write [⟨some "a.b", some "en", some "X", some "a.b.json", some "a.b"⟩]],
         false⟩ := by
  have h := claim4_set_records_write echoEnv ProtoState.initial setRecordsMsg setRecordMsg
    [⟨some "a.b", some "en", some "X"⟩] rfl rfl rfl rfl rfl
  constructor
  · rw [h.1]
    simp [echoEnv, echoLoader, sampleEnv, setRecordsMsg]
  · rw [h.2]
    simp [echoEnv, echoLoader, sampleEnv, setRecordMsg, Message.base]

/-- Claim C10: handling `set_record` with `keypath`, `locale` and `value`
fields has exactly the same result (state, effects, error flag) as
handling `set_records` whose items list is the corresponding single
item. -/
theorem claim10_set_record_refines (env : Env) (s : ProtoState)
    (k l v : Option String) (msg1 msg2 : Message)
    (h1 : msg1 = { Message.base "set_record" with keypath := k, locale := l, value := v })
    (h2 : msg2 = { Message.base "set_records" with items := some [⟨k, l, v⟩] })
    (hh1 : Protocol.handledByHook env msg1 = false)
    (hh2 : Protocol.handledByHook env msg2 = false) :
    Protocol.handleMessages env s msg1 = Protocol.handleMessages env s msg2 := by
  subst h1 h2
  simp only [Message.base] at hh1 hh2
  simp [Protocol.handleMessages, hh1, hh2, Protocol.setRecords, Message.base]

theorem claim10_set_record_refines_witness :
    Protocol.handleMessages echoEnv ProtoState.initial setRecordMsg
      = Protocol.handleMessages echoEnv ProtoState.initial setRecordsMsg := by
  have h := claim10_set_record_refines echoEnv ProtoState.initial
    (some "a.b") (some "en") (some "X") setRecordMsg setRecordsMsg
    (by simp [setRecordMsg, Message.base]) (by simp [setRecordsMsg, Message.base])
    rfl rfl
  exact h

/-- Claim C5: when the loader's create-if-missing node lookup finds no
node, `openKey` is a no-op: state unchanged (editing key included), no
message queued, no effect at all. -/
theorem claim5_openKey_missing (env : Env) (s : ProtoState) (k : String)
    (l : Option String) (i : Option Nat)
    (h : env.loader.getNodeByKey k true = none) :
    Protocol.openKey env s k l i = (s, []) := by
  simp [Protocol.openKey, h]

theorem claim5_openKey_missing_witness :
    Protocol.openKey sampleEnv ProtoState.initial "missing.key" none none
      = (ProtoState.initial, []) :=
  claim5_openKey_missing sampleEnv ProtoState.initial "missing.key" none none rfl

theorem queuedBy_nil (s : ProtoState) : queuedBy s s [] = [] := by
  simp [queuedBy, deliveredOf]

theorem queuedBy_postMessage_two (s : ProtoState) (m1 m2 : OutMessage) :
    queuedBy s (Protocol.postMessage (Protocol.postMessage s m1).1 m2).1
        ((Protocol.postMessage s m1).2 ++ (Protocol.postMessage (Protocol.postMessage s m1).1 m2).2)
      = [m1, m2] := by
  cases h : s.ready
  · rw [Protocol.postMessage_not_ready s m1 h]
    rw [Protocol.postMessage_not_ready _ m2 (by simp [h])]
    simp [queuedBy, deliveredOf, List.drop_left]
  · rw [Protocol.postMessage_is_ready s m1 h]
    rw [Protocol.postMessage_is_ready _ m2 (by simp [h])]
    simp [queuedBy, deliveredOf_append, deliveredOf_map_deliver, deliveredOf, List.drop_left]

/-- Whether an active document with a supported language exists. -/
def docOk (env : Env) : Bool :=
  match env.activeDocument with
  | none => false
  | some d => env.isLanguageIdSupported d.languageId

/-- The keys the detector reports for the active document (`[]` when no
document is active or the detector yields nothing). -/
def detectedKeys (env : Env) : List KeyInDocument :=
  match env.activeDocument with
  | none => []
  | some d => (env.getKeys d).getD []

/-- A document in a supported language in which no keys are detectable. -/
def emptyKeysDoc : Document := ⟨"typescript", "/w/a.ts"⟩

/-- An environment with an active, supported document but zero detected
keys. -/
def emptyKeysEnv : Env :=
  { sampleEnv with
    activeDocument := some emptyKeysDoc
    isLanguageIdSupported := fun _ => true
    getKeys := fun _ => some [] }

/-- Claim C6 counterexample: with an active document of a supported
language but no detectable keys, `sendCurrentFileContext` returns `false`
and queues no populated context (only the standalone baseline empty one),
contradicting the claim that in this situation it queues a populated
`context` message and returns `true`. -/
theorem claim6_empty_keys_counterexample :
    emptyKeysEnv.activeDocument = some emptyKeysDoc
    ∧ emptyKeysEnv.isLanguageIdSupported emptyKeysDoc.languageId = true
    ∧ ¬ ((Protocol.sendCurrentFileContext emptyKeysEnv ProtoState.initial).ret = true)
    ∧ queuedBy ProtoState.initial
        (Protocol.sendCurrentFileContext emptyKeysEnv ProtoState.initial).state
        (Protocol.sendCurrentFileContext emptyKeysEnv ProtoState.initial).effects
      = [OutMessage.context EditorContext.empty] := by
  refine ⟨rfl, rfl, by decide, by decide⟩

/-- Claim C6 (amended): `sendCurrentFileContext` first queues an empty
`context` message when the mode is `standalone`; if no document is active,
its language is unsupported, or no keys are detected in it, it returns
`false` with no further message; otherwise it queues a `context` message
with the file path and the detected keys, each augmented with its resolved
current value, and returns `true`. -/
theorem claim6_send_context (env : Env) (s : ProtoState) :
    (s._mode = Mode.standalone →
      (queuedBy s (Protocol.sendCurrentFileContext env s).state
          (Protocol.sendCurrentFileContext env s).effects).head?
        = some (OutMessage.context EditorContext.empty))
    ∧ (docOk env = false →
        (Protocol.sendCurrentFileContext env s).ret = false
        ∧ queuedBy s (Protocol.sendCurrentFileContext env s).state
            (Protocol.sendCurrentFileContext env s).effects
          = (if s._mode = Mode.standalone then [OutMessage.context EditorContext.empty] else []))
    ∧ (docOk env = true → detectedKeys env = [] →
        (Protocol.sendCurrentFileContext env s).ret = false
        ∧ queuedBy s (Protocol.sendCurrentFileContext env s).state
            (Protocol.sendCurrentFileContext env s).effects
          = (if s._mode = Mode.standalone then [OutMessage.context EditorContext.empty] else []))
    ∧ (∀ d, env.activeDocument = some d → env.isLanguageIdSupported d.languageId = true →
        detectedKeys env ≠ [] →
        (Protocol.sendCurrentFileContext env s).ret = true
        ∧ queuedBy s (Protocol.sendCurrentFileContext env s).state
            (Protocol.sendCurrentFileContext env s).effects
          = (if s._mode = Mode.standalone then [OutMessage.context EditorContext.empty] else [])
            ++ [OutMessage.context ⟨some d.fsPath,
                some ((detectedKeys env).map (fun kd =>
                  { kd with value := env.loader.getValueByKey kd.key }))⟩]) := by
  refine ⟨?_, ?_, ?_, ?_⟩
  · intro hmode
    unfold Protocol.sendCurrentFileContext
    rw [if_pos hmode]
    cases hdoc : env.activeDocument with
    | none => simp [Protocol.setContext, queuedBy_postMessage]
    | some d =>
      by_cases hsup : env.isLanguageIdSupported d.languageId
      · by_cases hkeys : ((env.getKeys d).getD []).isEmpty
        · simp [hsup, hkeys, Protocol.setContext, queuedBy_postMessage]
        · simp [hsup, hkeys, Protocol.setContext, queuedBy_postMessage_two]
      · simp [hsup, Protocol.setContext, queuedBy_postMessage]
  · intro hdoc
    unfold Protocol.sendCurrentFileContext
    unfold docOk at hdoc
    cases hd : env.activeDocument with
    | none =>
      by_cases hmode : s._mode = Mode.standalone <;>
        simp [hmode, Protocol.setContext, queuedBy_postMessage, queuedBy_nil]
    | some d =>
      rw [hd] at hdoc
      have hdoc2 : env.isLanguageIdSupported d.languageId = false := hdoc
      by_cases hmode : s._mode = Mode.standalone <;>
        simp [hmode, hdoc2, Protocol.setContext, queuedBy_postMessage, queuedBy_nil]
  · intro hdoc hkeys
    unfold Protocol.sendCurrentFileContext
    unfold docOk at hdoc
    unfold detectedKeys at hkeys
    cases hd : env.activeDocument with
    | none =>
      rw [hd] at hdoc
      have hdoc2 : false = true := hdoc
      exact absurd hdoc2 (by decide)
    | some d =>
      rw [hd] at hdoc hkeys
      have hdoc2 : env.isLanguageIdSupported d.languageId = true := hdoc
      have hkeys2 : (env.getKeys d).getD [] = [] := hkeys
      by_cases hmode : s._mode = Mode.standalone <;>
        simp [hmode, hdoc2, hkeys2, Protocol.setContext, queuedBy_postMessage, queuedBy_nil]
  · intro d hd hsup hkeys
    unfold Protocol.sendCurrentFileContext
    unfold detectedKeys at hkeys ⊢
    rw [hd] at hkeys ⊢
    have hne : ((env.getKeys d).getD []).isEmpty = false := by
      simpa [List.isEmpty_iff] using hkeys
    by_cases hmode : s._mode = Mode.standalone <;>
      simp [hmode, hsup, hne, Protocol.setContext, queuedBy_postMessage, queuedBy_postMessage_two]

/-- A document with two detectable keys, and the environment exposing it. -/
def twoKeysDoc : Document := ⟨"typescript", "/w/b.ts"⟩

/-- An environment whose active document carries two detectable keys. -/
def twoKeysEnv : Env :=
  { sampleEnv with
    loader := echoLoader
    activeDocument := some twoKeysDoc
    isLanguageIdSupported := fun _ => true
    getKeys := fun _ => some [⟨"a.b", 0, none⟩, ⟨"c.d", 1, none⟩] }

theorem claim6_send_context_witness :
    ((queuedBy ProtoState.initial
        (Protocol.sendCurrentFileContext twoKeysEnv ProtoState.initial).state
        (Protocol.sendCurrentFileContext twoKeysEnv ProtoState.initial).effects).head?
      = some (OutMessage.context EditorContext.empty))
    ∧ ((Protocol.sendCurrentFileContext sampleEnv ProtoState.initial).ret = false
        ∧ queuedBy ProtoState.initial
            (Protocol.sendCurrentFileContext sampleEnv ProtoState.initial).state
            (Protocol.sendCurrentFileContext sampleEnv ProtoState.initial).effects
          = [OutMessage.context EditorContext.empty])
    ∧ ((Protocol.sendCurrentFileContext twoKeysEnv ProtoState.initial).ret = true
        ∧ queuedBy ProtoState.initial
            (Protocol.sendCurrentFileContext twoKeysEnv ProtoState.initial).state
            (Protocol.sendCurrentFileContext twoKeysEnv ProtoState.initial).effects
          = [OutMessage.context EditorContext.empty,
             OutMessage.context ⟨some "/w/b.ts",
               some [⟨"a.b", 0, some "val:a.b"⟩, ⟨"c.d", 1, some "val:c.d"⟩]⟩]) := by
  have h1 := (claim6_send_context twoKeysEnv ProtoState.initial).1 rfl
  have h2 := (claim6_send_context sampleEnv ProtoState.initial).2.1 rfl
  have h4 := (claim6_send_context twoKeysEnv ProtoState.initial).2.2.2 twoKeysDoc rfl rfl
    (by decide)
  refine ⟨h1, by simpa using h2, ?_⟩
  have h4e := h4
  refine ⟨h4e.1, ?_⟩
  have := h4e.2
  simpa [twoKeysEnv, twoKeysDoc, echoLoader, sampleEnv, detectedKeys] using this

namespace Protocol

theorem dispatch_ready (env : Env) (s : ProtoState) (msg : Message)
    (hh : handledByHook env msg = false) (ht : msg.type = "ready") :
    handleMessages env s msg = ⟨(handleReady env s).1, (handleReady env s).2, false⟩ := by
  simp [handleMessages, hh, ht]

theorem dispatch_init (env : Env) (s : ProtoState) (msg : Message)
    (hh : handledByHook env msg = false) (ht : msg.type = "init") :
    handleMessages env s msg = ⟨(updateI18nMessages env s).1, (updateI18nMessages env s).2, false⟩ := by
  simp [handleMessages, hh, ht]

theorem dispatch_get_record (env : Env) (s : ProtoState) (msg : Message)
    (hh : handledByHook env msg = false) (ht : msg.type = "get_record") :
    handleMessages env s msg = ⟨(postMessage s (OutMessage.reply (ReplyData.record (env.loader.getRecordByKey msg.keypath msg.locale true)) msg._id)).1, (postMessage s (OutMessage.reply (ReplyData.record (env.loader.getRecordByKey msg.keypath msg.locale true)) msg._id)).2, false⟩ := by
  simp [handleMessages, hh, ht]

theorem dispatch_set_record (env : Env) (s : ProtoState) (msg : Message)
    (hh : handledByHook env msg = false) (ht : msg.type = "set_record") :
    handleMessages env s msg = ⟨s, setRecords env [⟨msg.keypath, msg.locale, msg.value⟩], false⟩ := by
  simp [handleMessages, hh, ht]

theorem dispatch_translate (env : Env) (s : ProtoState) (msg : Message)
    (hh : handledByHook env msg = false) (ht : msg.type = "translate") :
    handleMessages env s msg = ⟨s, [Effect.translateKeys msg.data], false⟩ := by
  simp [handleMessages, hh, ht]

theorem dispatch_review_description (env : Env) (s : ProtoState) (msg : Message)
    (hh : handledByHook env msg = false) (ht : msg.type = "review.description") :
    handleMessages env s msg = ⟨s, [Effect.promptEditDescription msg.keypath], false⟩ := by
  simp [handleMessages, hh, ht]

theorem dispatch_review_comment (env : Env) (s : ProtoState) (msg : Message)
    (hh : handledByHook env msg = false) (ht : msg.type = "review.comment") :
    handleMessages env s msg = ⟨s, [Effect.addComment msg.keypath msg.locale msg.data], false⟩ := by
  simp [handleMessages, hh, ht]

theorem dispatch_review_edit (env : Env) (s : ProtoState) (msg : Message)
    (hh : handledByHook env msg = false) (ht : msg.type = "review.edit") :
    handleMessages env s msg = ⟨s, [Effect.editComment msg.keypath msg.locale msg.data], false⟩ := by
  simp [handleMessages, hh, ht]

theorem dispatch_review_resolve (env : Env) (s : ProtoState) (msg : Message)
    (hh : handledByHook env msg = false) (ht : msg.type = "review.resolve") :
    handleMessages env s msg = ⟨s, [Effect.resolveComment msg.keypath msg.locale msg.commentId], false⟩ := by
  simp [handleMessages, hh, ht]

theorem dispatch_review_apply_suggestion (env : Env) (s : ProtoState) (msg : Message)
    (hh : handledByHook env msg = false) (ht : msg.type = "review.apply-suggestion") :
    handleMessages env s msg = ⟨s, [Effect.applySuggestion msg.keypath msg.locale msg.commentId], false⟩ := by
  simp [handleMessages, hh, ht]

theorem dispatch_open_builtin_settings (env : Env) (s : ProtoState) (msg : Message)
    (hh : handledByHook env msg = false) (ht : msg.type = "open-builtin-settings") :
    handleMessages env s msg = ⟨s, [Effect.executeCommand "workbench.extensions.action.configure" (some env.extId)], false⟩ := by
  simp [handleMessages, hh, ht]

theorem dispatch_open_search (env : Env) (s : ProtoState) (msg : Message)
    (hh : handledByHook env msg = false) (ht : msg.type = "open-search") :
    handleMessages env s msg = ⟨s, [Effect.executeCommand env.openEditorCommand none], false⟩ := by
  simp [handleMessages, hh, ht]

theorem dispatch_translation_apply (env : Env) (s : ProtoState) (msg : Message)
    (hh : handledByHook env msg = false) (ht : msg.type = "translation.apply") :
    handleMessages env s msg = ⟨s, [Effect.applyTranslationCandidate msg.keypath msg.locale], false⟩ := by
  simp [handleMessages, hh, ht]

theorem dispatch_translation_edit (env : Env) (s : ProtoState) (msg : Message)
    (hh : handledByHook env msg = false) (ht : msg.type = "translation.edit") :
    handleMessages env s msg = ⟨s, [Effect.promptEditTranslation msg.keypath msg.locale], false⟩ := by
  simp [handleMessages, hh, ht]

theorem dispatch_translation_discard (env : Env) (s : ProtoState) (msg : Message)
    (hh : handledByHook env msg = false) (ht : msg.type = "translation.discard") :
    handleMessages env s msg = ⟨s, [Effect.discardTranslationCandidate msg.keypath msg.locale], false⟩ := by
  simp [handleMessages, hh, ht]

theorem dispatch_get_records_none (env : Env) (s : ProtoState) (msg : Message)
    (hh : handledByHook env msg = false) (ht : msg.type = "get_records")
    (hi : msg.items = none) :
    handleMessages env s msg = ⟨s, [], true⟩ := by
  simp [handleMessages, hh, ht, hi]

theorem dispatch_get_records_some (env : Env) (s : ProtoState) (msg : Message)
    (xs : List MsgItem)
    (hh : handledByHook env msg = false) (ht : msg.type = "get_records")
    (hi : msg.items = some xs) :
    handleMessages env s msg
      = ⟨(postMessage s (OutMessage.reply (ReplyData.records (xs.map (fun i =>
            env.loader.getRecordByKey i.keypath i.locale true))) msg._id)).1,
         (postMessage s (OutMessage.reply (ReplyData.records (xs.map (fun i =>
            env.loader.getRecordByKey i.keypath i.locale true))) msg._id)).2,
         false⟩ := by
  simp [handleMessages, hh, ht, hi]

theorem dispatch_set_records_none (env : Env) (s : ProtoState) (msg : Message)
    (hh : handledByHook env msg = false) (ht : msg.type = "set_records")
    (hi : msg.items = none) :
    handleMessages env s msg = ⟨s, [], true⟩ := by
  simp [handleMessages, hh, ht, hi]

theorem dispatch_set_records_some (env : Env) (s : ProtoState) (msg : Message)
    (xs : List MsgItem)
    (hh : handledByHook env msg = false) (ht : msg.type = "set_records")
    (hi : msg.items = some xs) :
    handleMessages env s msg = ⟨s, setRecords env xs, false⟩ := by
  simp [handleMessages, hh, ht, hi]

theorem dispatch_hooked (env : Env) (s : ProtoState) (msg : Message)
    (hh : handledByHook env msg = true) :
    handleMessages env s msg = ⟨s, [], false⟩ := by
  simp [handleMessages, hh]

theorem dispatch_other (env : Env) (s : ProtoState) (msg : Message)
    (hh : handledByHook env msg = false)
    (n1 : ¬ msg.type = "ready")
    (n2 : ¬ msg.type = "init")
    (n3 : ¬ msg.type = "get_record")
    (n4 : ¬ msg.type = "set_record")
    (n5 : ¬ msg.type = "get_records")
    (n6 : ¬ msg.type = "set_records")
    (n7 : ¬ msg.type = "translate")
    (n8 : ¬ msg.type = "review.description")
    (n9 : ¬ msg.type = "review.comment")
    (n10 : ¬ msg.type = "review.edit")
    (n11 : ¬ msg.type = "review.resolve")
    (n12 : ¬ msg.type = "review.apply-suggestion")
    (n13 : ¬ msg.type = "open-builtin-settings")
    (n14 : ¬ msg.type = "open-search")
    (n15 : ¬ msg.type = "translation.apply")
    (n16 : ¬ msg.type = "translation.edit")
    (n17 : ¬ msg.type = "translation.discard") :
    handleMessages env s msg = ⟨s, [], false⟩ := by
  simp [handleMessages, hh, n1, n2, n3, n4, n5, n6, n7, n8, n9, n10, n11, n12, n13, n14, n15, n16, n17]

end Protocol

theorem queuedBy_postMessage_from (s0 s : ProtoState) (m : OutMessage)
    (hp : s.pendingMessages = s0.pendingMessages) :
    queuedBy s0 (Protocol.postMessage s m).1 (Protocol.postMessage s m).2 = [m] := by
  cases h : s.ready
  · rw [Protocol.postMessage_not_ready s m h]
    simp [queuedBy, deliveredOf, hp, List.drop_left]
  · rw [Protocol.postMessage_is_ready s m h]
    simp [queuedBy, deliveredOf_append, deliveredOf_map_deliver, deliveredOf, hp,
      List.drop_left]

theorem queuedBy_postMessage_two_from (s0 s : ProtoState) (m1 m2 : OutMessage)
    (hp : s.pendingMessages = s0.pendingMessages) :
    queuedBy s0 (Protocol.postMessage (Protocol.postMessage s m1).1 m2).1
        ((Protocol.postMessage s m1).2
          ++ (Protocol.postMessage (Protocol.postMessage s m1).1 m2).2)
      = [m1, m2] := by
  cases h : s.ready
  · rw [Protocol.postMessage_not_ready s m1 h]
    rw [Protocol.postMessage_not_ready _ m2 (by simp [h])]
    simp [queuedBy, deliveredOf, hp, List.drop_left]
  · rw [Protocol.postMessage_is_ready s m1 h]
    rw [Protocol.postMessage_is_ready _ m2 (by simp [h])]
    simp [queuedBy, deliveredOf_append, deliveredOf_map_deliver, deliveredOf, hp,
      List.drop_left]

theorem queuedBy_postMessage_three_from (s0 s : ProtoState) (m1 m2 m3 : OutMessage)
    (hp : s.pendingMessages = s0.pendingMessages) :
    queuedBy s0
        (Protocol.postMessage (Protocol.postMessage (Protocol.postMessage s m1).1 m2).1 m3).1
        ((Protocol.postMessage s m1).2
          ++ ((Protocol.postMessage (Protocol.postMessage s m1).1 m2).2
            ++ (Protocol.postMessage
                (Protocol.postMessage (Protocol.postMessage s m1).1 m2).1 m3).2))
      = [m1, m2, m3] := by
  cases h : s.ready
  · rw [Protocol.postMessage_not_ready s m1 h]
    rw [Protocol.postMessage_not_ready _ m2 (by simp [h])]
    rw [Protocol.postMessage_not_ready _ m3 (by simp [h])]
    simp [queuedBy, deliveredOf, hp, List.drop_left]
  · rw [Protocol.postMessage_is_ready s m1 h]
    rw [Protocol.postMessage_is_ready _ m2 (by simp [h])]
    rw [Protocol.postMessage_is_ready _ m3 (by simp [h])]
    simp [queuedBy, deliveredOf_append, deliveredOf_map_deliver, deliveredOf, hp,
      List.drop_left]

/-- An outbound message carrying one of the five literal `type` values the
component produces, all non-empty. -/
def typedOut (m : OutMessage) : Prop :=
  ∃ t, OutMessage.typeName m = some t ∧ t ≠ ""
    ∧ t ∈ (["ready", "config", "i18n", "route", "context"] : List String)

theorem typedOut_ready : typedOut OutMessage.ready :=
  ⟨"ready", rfl, by decide, by decide⟩

theorem typedOut_config (d : List (String × ConfigValue)) :
    typedOut (OutMessage.config d) :=
  ⟨"config", rfl, by decide, by decide⟩

theorem typedOut_i18n (d : Nat) : typedOut (OutMessage.i18n d) :=
  ⟨"i18n", rfl, by decide, by decide⟩

theorem typedOut_route (r : String) (d : RouteData) :
    typedOut (OutMessage.route r d) :=
  ⟨"route", rfl, by decide, by decide⟩

theorem typedOut_context (d : EditorContext) : typedOut (OutMessage.context d) :=
  ⟨"context", rfl, by decide, by decide⟩

/-- An outbound message that is either one of the five typed shapes or a
reply correlated with the given inbound id. -/
def wellTyped (idOf : Option Int) (m : OutMessage) : Prop :=
  typedOut m ∨ ∃ d, m = OutMessage.reply d idOf

theorem wellTyped_ready (idOf : Option Int) : wellTyped idOf OutMessage.ready :=
  Or.inl typedOut_ready

theorem wellTyped_config (idOf : Option Int) (d : List (String × ConfigValue)) :
    wellTyped idOf (OutMessage.config d) :=
  Or.inl (typedOut_config d)

theorem wellTyped_i18n (idOf : Option Int) (d : Nat) :
    wellTyped idOf (OutMessage.i18n d) :=
  Or.inl (typedOut_i18n d)

theorem wellTyped_reply (idOf : Option Int) (d : ReplyData) :
    wellTyped idOf (OutMessage.reply d idOf) :=
  Or.inr ⟨d, rfl⟩

/-- Claim C7: every message the component queues for the UI either carries
one of the non-empty literal `type` values `ready`, `config`, `i18n`,
`route`, `context`, or is a reply correlated with the id of the inbound
request being handled; this holds for the dispatcher and for every other
queueing operation of the component. -/
theorem claim7_outbound_types (env : Env) (s : ProtoState) (msg : Message)
    (k : String) (l : Option String) (i : Option Nat) (ctx : EditorContext) :
    (∀ m ∈ queuedBy s (Protocol.handleMessages env s msg).state
        (Protocol.handleMessages env s msg).effects, wellTyped msg._id m)
    ∧ (∀ m ∈ queuedBy s (Protocol.openKey env s k l i).1
        (Protocol.openKey env s k l i).2, typedOut m)
    ∧ (∀ m ∈ queuedBy s (Protocol.setContext s ctx).1
        (Protocol.setContext s ctx).2, typedOut m)
    ∧ (∀ m ∈ queuedBy s (Protocol.sendCurrentFileContext env s).state
        (Protocol.sendCurrentFileContext env s).effects, typedOut m)
    ∧ (∀ m ∈ queuedBy s (Protocol.updateConfig env s).1
        (Protocol.updateConfig env s).2, typedOut m)
    ∧ (∀ m ∈ queuedBy s (Protocol.updateI18nMessages env s).1
        (Protocol.updateI18nMessages env s).2, typedOut m) := by
  refine ⟨?_, ?_, ?_, ?_, ?_, ?_⟩
  · by_cases hhook : Protocol.handledByHook env msg = true
    · rw [Protocol.dispatch_hooked env s msg hhook]
      simp [queuedBy_nil]
    · have hh : Protocol.handledByHook env msg = false := by simpa using hhook
      by_cases h1 : msg.type = "ready"
      · rw [Protocol.dispatch_ready env s msg hh h1]
        simp [Protocol.handleReady, Protocol.updateConfig, Protocol.updateI18nMessages,
          Protocol.postMessage, queuedBy, deliveredOf_append, deliveredOf_map_deliver,
          deliveredOf, List.drop_left, wellTyped_ready, wellTyped_config, wellTyped_i18n]
      by_cases h2 : msg.type = "init"
      · rw [Protocol.dispatch_init env s msg hh h2]
        simp [Protocol.updateI18nMessages, queuedBy_postMessage, wellTyped_i18n]
      by_cases h3 : msg.type = "get_record"
      · rw [Protocol.dispatch_get_record env s msg hh h3]
        simp [queuedBy_postMessage, wellTyped_reply]
      by_cases h4 : msg.type = "set_record"
      · rw [Protocol.dispatch_set_record env s msg hh h4]
        simp [Protocol.setRecords, queuedBy, deliveredOf]
      by_cases h5 : msg.type = "get_records"
      · cases hi : msg.items with
        | none =>
          rw [Protocol.dispatch_get_records_none env s msg hh h5 hi]
          simp [queuedBy_nil]
        | some xs =>
          rw [Protocol.dispatch_get_records_some env s msg xs hh h5 hi]
          simp [queuedBy_postMessage, wellTyped_reply]
      by_cases h6 : msg.type = "set_records"
      · cases hi : msg.items with
        | none =>
          rw [Protocol.dispatch_set_records_none env s msg hh h6 hi]
          simp [queuedBy_nil]
        | some xs =>
          rw [Protocol.dispatch_set_records_some env s msg xs hh h6 hi]
          simp [Protocol.setRecords, queuedBy, deliveredOf]
      by_cases h7 : msg.type = "translate"
      · rw [Protocol.dispatch_translate env s msg hh h7]
        simp [queuedBy, deliveredOf]
      by_cases h8 : msg.type = "review.description"
      · rw [Protocol.dispatch_review_description env s msg hh h8]
        simp [queuedBy, deliveredOf]
      by_cases h9 : msg.type = "review.comment"
      · rw [Protocol.dispatch_review_comment env s msg hh h9]
        simp [queuedBy, deliveredOf]
      by_cases h10 : msg.type = "review.edit"
      · rw [Protocol.dispatch_review_edit env s msg hh h10]
        simp [queuedBy, deliveredOf]
      by_cases h11 : msg.type = "review.resolve"
      · rw [Protocol.dispatch_review_resolve env s msg hh h11]
        simp [queuedBy, deliveredOf]
      by_cases h12 : msg.type = "review.apply-suggestion"
      · rw [Protocol.dispatch_review_apply_suggestion env s msg hh h12]
        simp [queuedBy, deliveredOf]
      by_cases h13 : msg.type = "open-builtin-settings"
      · rw [Protocol.dispatch_open_builtin_settings env s msg hh h13]
        simp [queuedBy, deliveredOf]
      by_cases h14 : msg.type = "open-search"
      · rw [Protocol.dispatch_open_search env s msg hh h14]
        simp [queuedBy, deliveredOf]
      by_cases h15 : msg.type = "translation.apply"
      · rw [Protocol.dispatch_translation_apply env s msg hh h15]
        simp [queuedBy, deliveredOf]
      by_cases h16 : msg.type = "translation.edit"
      · rw [Protocol.dispatch_translation_edit env s msg hh h16]
        simp [queuedBy, deliveredOf]
      by_cases h17 : msg.type = "translation.discard"
      · rw [Protocol.dispatch_translation_discard env s msg hh h17]
        simp [queuedBy, deliveredOf]
      rw [Protocol.dispatch_other env s msg hh h1 h2 h3 h4 h5 h6 h7 h8 h9 h10 h11 h12
        h13 h14 h15 h16 h17]
      simp [queuedBy_nil]
  · cases hnode : env.loader.getNodeByKey k true with
    | none =>
      unfold Protocol.openKey
      rw [hnode]
      simp [queuedBy_nil]
    | some n =>
      unfold Protocol.openKey
      rw [hnode]
      by_cases hmode : s._mode = Mode.standalone
      · cases hdoc : env.activeDocument with
        | none =>
          simp [Protocol.sendCurrentFileContext, Protocol.setContext, hdoc, hmode,
            Protocol.postMessage_mode_eq, queuedBy_postMessage_two_from,
            typedOut_route, typedOut_context]
        | some d =>
          by_cases hsup : env.isLanguageIdSupported d.languageId
          · by_cases hkeys : ((env.getKeys d).getD []).isEmpty
            · simp [Protocol.sendCurrentFileContext, Protocol.setContext, hdoc, hmode,
                hsup, hkeys, Protocol.postMessage_mode_eq, queuedBy_postMessage_two_from,
                typedOut_route, typedOut_context]
            · simp [Protocol.sendCurrentFileContext, Protocol.setContext, hdoc, hmode,
                hsup, hkeys, Protocol.postMessage_mode_eq, queuedBy_postMessage_three_from,
                typedOut_route, typedOut_context]
          · simp [Protocol.sendCurrentFileContext, Protocol.setContext, hdoc, hmode,
              hsup, Protocol.postMessage_mode_eq, queuedBy_postMessage_two_from,
              typedOut_route, typedOut_context]
      · cases hdoc : env.activeDocument with
        | none =>
          simp [Protocol.sendCurrentFileContext, Protocol.setContext, hdoc, hmode,
            Protocol.postMessage_mode_eq, queuedBy_postMessage_from, typedOut_route]
        | some d =>
          by_cases hsup : env.isLanguageIdSupported d.languageId
          · by_cases hkeys : ((env.getKeys d).getD []).isEmpty
            · simp [Protocol.sendCurrentFileContext, Protocol.setContext, hdoc, hmode,
                hsup, hkeys, Protocol.postMessage_mode_eq, queuedBy_postMessage_from,
                typedOut_route]
            · simp [Protocol.sendCurrentFileContext, Protocol.setContext, hdoc, hmode,
                hsup, hkeys, Protocol.postMessage_mode_eq, queuedBy_postMessage_two_from,
                typedOut_route, typedOut_context]
          · simp [Protocol.sendCurrentFileContext, Protocol.setContext, hdoc, hmode,
              hsup, Protocol.postMessage_mode_eq, queuedBy_postMessage_from, typedOut_route]
  · simp [Protocol.setContext, queuedBy_postMessage, typedOut_context]
  · by_cases hmode : s._mode = Mode.standalone
    · cases hdoc : env.activeDocument with
      | none =>
        simp [Protocol.sendCurrentFileContext, Protocol.setContext, hdoc, hmode,
          queuedBy_postMessage, typedOut_context]
      | some d =>
        by_cases hsup : env.isLanguageIdSupported d.languageId
        · by_cases hkeys : ((env.getKeys d).getD []).isEmpty
          · simp [Protocol.sendCurrentFileContext, Protocol.setContext, hdoc, hmode,
              hsup, hkeys, queuedBy_postMessage, typedOut_context]
          · simp [Protocol.sendCurrentFileContext, Protocol.setContext, hdoc, hmode,
              hsup, hkeys, queuedBy_postMessage_two, typedOut_context]
        · simp [Protocol.sendCurrentFileContext, Protocol.setContext, hdoc, hmode,
            hsup, queuedBy_postMessage, typedOut_context]
    · cases hdoc : env.activeDocument with
      | none =>
        simp [Protocol.sendCurrentFileContext, hdoc, hmode, queuedBy_nil]
      | some d =>
        by_cases hsup : env.isLanguageIdSupported d.languageId
        · by_cases hkeys : ((env.getKeys d).getD []).isEmpty
          · simp [Protocol.sendCurrentFileContext, hdoc, hmode, hsup, hkeys, queuedBy_nil]
          · simp [Protocol.sendCurrentFileContext, Protocol.setContext, hdoc, hmode,
              hsup, hkeys, queuedBy_postMessage, typedOut_context]
        · simp [Protocol.sendCurrentFileContext, hdoc, hmode, hsup, queuedBy_nil]
  · simp [Protocol.updateConfig, queuedBy_postMessage, typedOut_config]
  · simp [Protocol.updateI18nMessages, queuedBy_postMessage, typedOut_i18n]

theorem claim7_outbound_types_witness :
    wellTyped (some 42) (OutMessage.reply
      (ReplyData.record (some ⟨"a.b", "en", "v", some "a.b.json", some ⟨some "a.b"⟩⟩))
      (some 42)) := by
  have h := (claim7_outbound_types echoEnv ProtoState.initial getRecordMsg
    "a.b" none none EditorContext.empty).1
  apply h
  decide
